import Mathlib

/-!
# Verification of the versioned configuration registry

Shallow embedding of the core of the service (validation, version
assignment, persistence, history, template rendering) and proofs of the
specification's claims about it.

Source modules embedded:
* `app/validation.py` — `_dig`, `REQUIRED_FIELDS`, `validate_config_payload`
* `app/db.py` — `insert_config`, `get_latest_version`, `get_config`,
  `get_history` (over an in-memory model of the `configurations` relation)
* `app/api.py` — `post_config`, `_handle_errors`
* `app/templating.py` — `_render`, `render_config` (the external Jinja2
  engine is modelled from the spec's description of strict rendering)
-/

set_option linter.unreachableTactic false
set_option linter.unusedTactic false

namespace ConfigRegistry

/-- A Python/YAML/JSON value: the document tree handed to the core after
YAML parsing (`yaml.safe_load`). Maps are association lists in insertion
order, mirroring Python dicts. Python `None` is `.null`. -/
inductive JValue where
  | null : JValue
  | bool (b : Bool) : JValue
  | int (n : Int) : JValue
  | str (s : String) : JValue
  | arr (xs : List JValue) : JValue
  | obj (kvs : List (String × JValue)) : JValue
  deriving Repr

mutual

/-- Decidable equality on document trees (structural). -/
def JValue.decEq : (a b : JValue) → Decidable (a = b)
  | .null, .null => isTrue rfl
  | .bool a, .bool b => decidable_of_iff (a = b) (by simp)
  | .int a, .int b => decidable_of_iff (a = b) (by simp)
  | .str a, .str b => decidable_of_iff (a = b) (by simp)
  | .arr xs, .arr ys =>
      match JValue.decEqList xs ys with
      | isTrue h => isTrue (by rw [h])
      | isFalse h => isFalse (fun hh => h (by injection hh))
  | .obj xs, .obj ys =>
      match JValue.decEqObj xs ys with
      | isTrue h => isTrue (by rw [h])
      | isFalse h => isFalse (fun hh => h (by injection hh))
  | .null, .bool _ => isFalse (fun h => nomatch h)
  | .null, .int _ => isFalse (fun h => nomatch h)
  | .null, .str _ => isFalse (fun h => nomatch h)
  | .null, .arr _ => isFalse (fun h => nomatch h)
  | .null, .obj _ => isFalse (fun h => nomatch h)
  | .bool _, .null => isFalse (fun h => nomatch h)
  | .bool _, .int _ => isFalse (fun h => nomatch h)
  | .bool _, .str _ => isFalse (fun h => nomatch h)
  | .bool _, .arr _ => isFalse (fun h => nomatch h)
  | .bool _, .obj _ => isFalse (fun h => nomatch h)
  | .int _, .null => isFalse (fun h => nomatch h)
  | .int _, .bool _ => isFalse (fun h => nomatch h)
  | .int _, .str _ => isFalse (fun h => nomatch h)
  | .int _, .arr _ => isFalse (fun h => nomatch h)
  | .int _, .obj _ => isFalse (fun h => nomatch h)
  | .str _, .null => isFalse (fun h => nomatch h)
  | .str _, .bool _ => isFalse (fun h => nomatch h)
  | .str _, .int _ => isFalse (fun h => nomatch h)
  | .str _, .arr _ => isFalse (fun h => nomatch h)
  | .str _, .obj _ => isFalse (fun h => nomatch h)
  | .arr _, .null => isFalse (fun h => nomatch h)
  | .arr _, .bool _ => isFalse (fun h => nomatch h)
  | .arr _, .int _ => isFalse (fun h => nomatch h)
  | .arr _, .str _ => isFalse (fun h => nomatch h)
  | .arr _, .obj _ => isFalse (fun h => nomatch h)
  | .obj _, .null => isFalse (fun h => nomatch h)
  | .obj _, .bool _ => isFalse (fun h => nomatch h)
  | .obj _, .int _ => isFalse (fun h => nomatch h)
  | .obj _, .str _ => isFalse (fun h => nomatch h)
  | .obj _, .arr _ => isFalse (fun h => nomatch h)

/-- Decidable equality on lists of document trees. -/
def JValue.decEqList : (xs ys : List JValue) → Decidable (xs = ys)
  | [], [] => isTrue rfl
  | [], _ :: _ => isFalse (fun h => nomatch h)
  | _ :: _, [] => isFalse (fun h => nomatch h)
  | x :: xs, y :: ys =>
      match JValue.decEq x y, JValue.decEqList xs ys with
      | isTrue h1, isTrue h2 => isTrue (by rw [h1, h2])
      | isFalse h1, _ => isFalse (fun h => by
          injection h with ha hb
          exact h1 ha)
      | _, isFalse h2 => isFalse (fun h => by
          injection h with ha hb
          exact h2 hb)

/-- Decidable equality on key-value lists of document trees. -/
def JValue.decEqObj : (xs ys : List (String × JValue)) → Decidable (xs = ys)
  | [], [] => isTrue rfl
  | [], _ :: _ => isFalse (fun h => nomatch h)
  | _ :: _, [] => isFalse (fun h => nomatch h)
  | (k, v) :: xs, (l, w) :: ys =>
      if hk : k = l then
        match JValue.decEq v w, JValue.decEqObj xs ys with
        | isTrue hv, isTrue ht => isTrue (by rw [hk, hv, ht])
        | isFalse hv, _ => isFalse (fun h => by
            injection h with ha hb
            exact hv (congrArg Prod.snd ha))
        | _, isFalse ht => isFalse (fun h => by
            injection h with ha hb
            exact ht hb)
      else isFalse (fun h => by
        injection h with ha hb
        exact hk (congrArg Prod.fst ha))

end

instance : DecidableEq JValue := JValue.decEq

/-- Decidable equality for `Except` results, so concrete runs of the
fallible operations can be checked by `decide`. -/
def exceptDecEq {ε α : Type} [DecidableEq ε] [DecidableEq α] :
    (a b : Except ε α) → Decidable (a = b)
  | .error e, .error f =>
      if h : e = f then isTrue (by rw [h])
      else isFalse (fun hh => h (by injection hh))
  | .ok x, .ok y =>
      if h : x = y then isTrue (by rw [h])
      else isFalse (fun hh => h (by injection hh))
  | .error _, .ok _ => isFalse (fun h => nomatch h)
  | .ok _, .error _ => isFalse (fun h => nomatch h)

instance {ε α : Type} [DecidableEq ε] [DecidableEq α] :
    DecidableEq (Except ε α) := exceptDecEq

/-- The Python `type` objects used in `REQUIRED_FIELDS`. -/
inductive PyType where
  | int : PyType
  | str : PyType
  deriving Repr, DecidableEq

/-- `type.__name__` for the types appearing in `REQUIRED_FIELDS`. -/
def PyType.name : PyType → String
  | .int => "int"
  | .str => "str"

/-- Python `isinstance(v, t)`. Crucially, `bool` is a subclass of `int`
in Python, so `isinstance(True, int)` is `True`. -/
def pyIsinstance : JValue → PyType → Bool
  | .int _, .int => true
  | .bool _, .int => true
  | .str _, .str => true
  | _, _ => false

/-- Numeric value of a Python object known to satisfy `isinstance(_, int)`:
booleans compare as 1/0 in Python arithmetic and comparisons. The catch-all
returns 0 and is only reached behind an `isinstance` guard in the code. -/
def pyAsInt : JValue → Int
  | .int n => n
  | .bool b => if b then 1 else 0
  | _ => 0

/-- Python whitespace characters as handled by `str.strip()` (the ASCII
whitespace set, which covers every string the service deals in). -/
def isPySpace (c : Char) : Bool :=
  c = ' ' ∨ c = '\t' ∨ c = '\n' ∨ c = '\r' ∨ c = '\x0b' ∨ c = '\x0c'

/-- `not s.strip()`: true iff the string is empty or whitespace-only
(stripping both ends leaves the empty string exactly in that case). -/
def pyStripIsEmpty (s : String) : Bool :=
  s.data.all isPySpace

/-- First match of a key in an association list (Python dicts have unique
keys, so this is the dict lookup). -/
def objGet (kvs : List (String × JValue)) (k : String) : Option JValue :=
  match kvs.find? (fun p => p.1 == k) with
  | some p => some p.2
  | none => none

/-- `validation._dig(d, path)` on an already-split path: descends nested
dicts; a missing key or non-dict intermediate yields Python `None`
(= `.null`), which is also what a literal `null` leaf yields. -/
def dig : JValue → List String → JValue
  | v, [] => v
  | .obj kvs, p :: ps =>
      match objGet kvs p with
      | some v => dig v ps
      | none => .null
  | _, _ :: _ => .null

/-- `path.split(".")` on the character list: splits a dotted path into
its components (e.g. `"database.host"` into `["database", "host"]`). -/
def splitDotAux : List Char → List Char → List String
  | [], acc => [String.mk acc.reverse]
  | c :: cs, acc =>
      if c = '.' then String.mk acc.reverse :: splitDotAux cs []
      else splitDotAux cs (c :: acc)

/-- `path.split(".")`. -/
def splitDot (path : String) : List String :=
  splitDotAux path.data []

/-- `validation._dig(d, path)` with the dotted path split on `"."`,
as the source does with `path.split(".")`. -/
def pyDig (d : JValue) (path : String) : JValue :=
  dig d (splitDot path)

/-- `validation.REQUIRED_FIELDS`: dotted paths with expected types.
`version` is optional (see `validate_config_payload`). -/
def REQUIRED_FIELDS : List (String × PyType) :=
  [("version", PyType.int), ("database.host", PyType.str),
   ("database.port", PyType.int)]

/-- `validation.validate_config_payload(doc)`: required/typed fields in
`REQUIRED_FIELDS` order, then the port-range check, then the host
non-emptiness check; all checks append to one error list. -/
def validate_config_payload (doc : JValue) : List String :=
  let fieldErrors := REQUIRED_FIELDS.foldl (fun errs pt =>
    let path := pt.1
    let val := pyDig doc path
    if val = .null ∧ path ≠ "version" then
      errs ++ ["Missing required field: " ++ path]
    else if val ≠ .null ∧ ¬ pyIsinstance val pt.2 then
      errs ++ ["Invalid type for " ++ path ++ ": expected " ++ pt.2.name]
    else errs) []
  let port := pyDig doc "database.port"
  let portErrors :=
    if pyIsinstance port .int ∧ ¬ (1 ≤ pyAsInt port ∧ pyAsInt port ≤ 65535)
    then ["Invalid database.port: must be 1..65535"] else []
  let host := pyDig doc "database.host"
  let hostErrors :=
    match host with
    | .str s =>
        if pyStripIsEmpty s
        then ["Invalid database.host: must be non-empty string"] else []
    | _ => []
  fieldErrors ++ portErrors ++ hostErrors

/-! ## The configuration store (`app/db.py` over an in-memory relation)

Modelled from the spec: the `configurations` relation behind `app/db.py`
lives in Postgres, whose schema is not part of the repository; §6 of the
spec specifies the abstract store — `(service, version, payload,
created_at)` rows, store-enforced uniqueness of `(service, version)`
(`insert` fails with `ConflictError` on collision) and store-assigned
`created_at` timestamps. The model is an append-only list of rows whose
`created_at` is a monotone insertion counter. -/

/-- One row of the `configurations` relation. -/
structure Row where
  service : String
  version : Int
  payload : JValue
  created_at : Nat
  deriving Repr, DecidableEq

/-- The store: rows in insertion order. -/
abbrev Store := List Row

/-- Store-raised errors: `ConflictError` on a `(service, version)`
uniqueness violation (spec §6). -/
inductive DbError where
  | conflict : DbError
  deriving Repr, DecidableEq

/-- `db.insert_config(service, version, payload)`: inserts a row; fails
with `ConflictError` if `(service, version)` already exists; `created_at`
is assigned by the store (modelled as the insertion counter). -/
def insert_config (db : Store) (service : String) (version : Int)
    (payload : JValue) : Except DbError Store :=
  if db.any (fun r => r.service == service && r.version == version) then
    .error .conflict
  else
    .ok (db ++ [⟨service, version, payload, db.length⟩])

/-- `db.get_latest_version(service)`:
`SELECT MAX(version) FROM configurations WHERE service=%s`;
`none` when the service has no rows. -/
def get_latest_version (db : Store) (service : String) : Option Int :=
  ((db.filter (fun r => r.service == service)).map Row.version).max?

/-- `created_at DESC` as a sorting relation on rows. -/
def createdDesc (a b : Row) : Prop := b.created_at ≤ a.created_at

instance : DecidableRel createdDesc := fun a b =>
  inferInstanceAs (Decidable (b.created_at ≤ a.created_at))

/-- `db.get_history(service, limit)`:
`SELECT version, to_char(created_at ...) FROM configurations
WHERE service=%s ORDER BY created_at DESC LIMIT %s`, returned as
`(version, created_at)` pairs. The sort models `ORDER BY created_at
DESC` (timestamps are distinct, so the order is fully determined). -/
def get_history (db : Store) (service : String) (limit : Nat) :
    List (Int × Nat) :=
  ((List.insertionSort createdDesc
      (db.filter (fun r => r.service == service))).take limit).map
    (fun r => (r.version, r.created_at))

/-! ## The API layer (`app/api.py`) -/

/-- The exceptions reaching `api._handle_errors`: the service's own
error types (`app/errors.py`) plus any uncaught store-layer exception
(`ConflictError` among them), which matches the handler's final
`Exception` arm. -/
inductive ApiError where
  | badRequest (msg : String) : ApiError
  | unprocessableEntity (errors : List String) : ApiError
  | notFound : ApiError
  | storeError (e : DbError) : ApiError
  deriving Repr, DecidableEq

/-- `api._handle_errors`: maps an exception to an HTTP status and JSON
body. Anything that is not `BadRequest`, `UnprocessableEntity` or
`NotFound` — store conflicts included — becomes
`500 {"error": "internal server error"}`. -/
def handle_errors : ApiError → Nat × JValue
  | .badRequest m => (400, .obj [("error", .str m)])
  | .unprocessableEntity errs =>
      (422, .obj [("errors", .arr (errs.map JValue.str))])
  | .notFound => (404, .obj [("error", .str "service not found")])
  | .storeError _ => (500, .obj [("error", .str "internal server error")])

/-- Python `data.get(k)`: the value at key `k`, or `None` if absent. -/
def pyGet (v : JValue) (k : String) : JValue :=
  match v with
  | .obj kvs =>
      match objGet kvs k with
      | some x => x
      | none => .null
  | _ => .null

/-- Python `data[k] = x` on a dict: replaces the value in place if the
key exists (keeping its position), else appends the key at the end. -/
def pySet (v : JValue) (k : String) (x : JValue) : JValue :=
  match v with
  | .obj kvs =>
      if kvs.any (fun p => p.1 == k) then
        .obj (kvs.map (fun p => if p.1 == k then (k, x) else p))
      else .obj (kvs ++ [(k, x)])
  | _ => v

/-- `api.post_config(request, service)` from the point where the YAML
body has been parsed into `data`: root-must-be-mapping check, validation,
version assignment (`max+1` when `version` is absent, the caller's value
verbatim otherwise, written back into the document in the auto case),
then the store insert. There is no error handling around the insert: a
store error propagates out (to `_handle_errors`). Returns the new store
and the 200 response body `{"service", "version", "status": "saved"}`. -/
def post_config (db : Store) (service : String) (data : JValue) :
    Except ApiError (Store × JValue) :=
  match data with
  | .obj _ =>
      let errors := validate_config_payload data
      if errors ≠ [] then .error (.unprocessableEntity errors)
      else
        match pyGet data "version" with
        | .null =>
            let version : Int :=
              match get_latest_version db service with
              | none => 1
              | some m => m + 1
            let data2 := pySet data "version" (.int version)
            match insert_config db service version data2 with
            | .error e => .error (.storeError e)
            | .ok db2 =>
                .ok (db2, .obj [("service", .str service),
                  ("version", .int version), ("status", .str "saved")])
        | v =>
            match insert_config db service (pyAsInt v) data with
            | .error e => .error (.storeError e)
            | .ok db2 =>
                .ok (db2, .obj [("service", .str service),
                  ("version", v), ("status", .str "saved")])
  | _ => .error (.badRequest "YAML must represent a mapping (object)")

/-! ## Template rendering (`app/templating.py`) -/

/-- `"\x7b\x7b" in val or "\x7b%" in val`: does the string contain a
Jinja2 template marker? -/
def hasMarker : List Char → Bool
  | '\x7b' :: '\x7b' :: _ => true
  | '\x7b' :: '%' :: _ => true
  | _ :: cs => hasMarker cs
  | [] => false

/-- Strip leading and trailing whitespace from a character list
(Jinja2 ignores whitespace around the expression inside a block). -/
def trimChars (cs : List Char) : List Char :=
  ((cs.dropWhile isPySpace).reverse.dropWhile isPySpace).reverse

/-- Is this a plain identifier (a Jinja2 variable name)? -/
def isIdentChars : List Char → Bool
  | [] => false
  | c :: rest => (c.isAlpha || c = '_') && rest.all (fun d => d.isAlphanum || d = '_')

mutual

/-- Python `repr(x)` as far as the rendered documents need it (string
escaping inside nested containers is not modelled; no claim touches it). -/
def pyRepr : JValue → String
  | .null => "None"
  | .bool b => if b then "True" else "False"
  | .int n => toString n
  | .str s => "'" ++ s ++ "'"
  | .arr xs => "[" ++ pyReprList xs ++ "]"
  | .obj kvs => "\x7b" ++ pyReprObj kvs ++ "\x7d"

/-- Comma-separated reprs of a list's elements. -/
def pyReprList : List JValue → String
  | [] => ""
  | [x] => pyRepr x
  | x :: xs => pyRepr x ++ ", " ++ pyReprList xs

/-- Comma-separated reprs of a dict's items. -/
def pyReprObj : List (String × JValue) → String
  | [] => ""
  | [(k, v)] => "'" ++ k ++ "': " ++ pyRepr v
  | (k, v) :: kvs => "'" ++ k ++ "': " ++ pyRepr v ++ ", " ++ pyReprObj kvs

end

/-- Python `str(x)`: what Jinja2 writes into the output for `\x7b\x7b x \x7d\x7d`. -/
def pyStr : JValue → String
  | .str s => s
  | v => pyRepr v

/-- The template context: variable name to value, as parsed from the
request's JSON body. -/
abbrev Ctx := List (String × JValue)

/-- Context lookup (`StrictUndefined`: absence is the caller's problem). -/
def lookupCtx (ctx : Ctx) (name : String) : Option JValue :=
  match ctx.find? (fun p => p.1 == name) with
  | some p => some p.2
  | none => none

/-- Modelled from the spec: the external Jinja2 engine
(`Environment(undefined=StrictUndefined)`) evaluating one template
string. §4.3: a string leaf with markers "is evaluated as a template
against `context` under strict variable resolution: referencing any name
not present in `context` is a hard failure, not a silent empty
substitution", and a "syntax error in the expression" is likewise an
error. The model evaluates `\x7b\x7b name \x7d\x7d` expressions over plain variable
names; an unterminated expression, a non-identifier expression, or a
statement block `\x7b% ... %\x7d` (which no configuration in the claims uses) is
a syntax error. The second argument is `none` in literal text and
`some acc` inside an expression, `acc` holding the chars read so far
in reverse. -/
def renderChars (ctx : Ctx) : List Char → Option (List Char) →
    Except String (List Char)
  | '\x7b' :: '\x7b' :: rest, none => renderChars ctx rest (some [])
  | '\x7b' :: '%' :: _, none =>
      .error "statement blocks are not supported"
  | c :: cs, none => do
      let out ← renderChars ctx cs none
      pure (c :: out)
  | [], none => pure []
  | '\x7d' :: '\x7d' :: rest, some acc =>
      let nm := trimChars acc.reverse
      if isIdentChars nm then
        match lookupCtx ctx (String.mk nm) with
        | some v => do
            let out ← renderChars ctx rest none
            pure ((pyStr v).data ++ out)
        | none => .error ("'" ++ String.mk nm ++ "' is undefined")
      else .error "unexpected expression in template"
  | c :: cs, some acc => renderChars ctx cs (some (c :: acc))
  | [], some _ => .error "unexpected end of template"

/-- `env.from_string(val).render(**context)` for a whole string leaf. -/
def renderString (ctx : Ctx) (s : String) : Except String String :=
  (renderChars ctx s.data none).map String.mk

mutual

/-- `templating._render(val, context)`: a string containing a marker is
rendered through the engine (an engine error becomes
`ValueError("Template render error: ...")`, which aborts everything);
lists and dicts recurse; all other values pass through unchanged. -/
def jrender (ctx : Ctx) : JValue → Except String JValue
  | .str s =>
      if hasMarker s.data then
        match renderString ctx s with
        | .ok out => .ok (.str out)
        | .error e => .error ("Template render error: " ++ e)
      else .ok (.str s)
  | .arr xs => do
      pure (.arr (← jrenderList ctx xs))
  | .obj kvs => do
      pure (.obj (← jrenderObj ctx kvs))
  | v => pure v

/-- `[_render(x, context) for x in val]`. -/
def jrenderList (ctx : Ctx) : List JValue → Except String (List JValue)
  | [] => pure []
  | x :: xs => do
      pure ((← jrender ctx x) :: (← jrenderList ctx xs))

/-- `\x7bk: _render(v, context) for k, v in val.items()\x7d`. -/
def jrenderObj (ctx : Ctx) : List (String × JValue) →
    Except String (List (String × JValue))
  | [] => pure []
  | (k, v) :: kvs => do
      pure ((k, ← jrender ctx v) :: (← jrenderObj ctx kvs))

end

/-- `templating.render_config(data, context)`: renders the whole
document (the source's trailing `assert isinstance(rendered, dict)`
always holds, since `_render` maps a dict to a dict). -/
def render_config (data : JValue) (ctx : Ctx) : Except String JValue :=
  jrender ctx data

/-! ## Predicates used by the statements -/

/-- Python `==` on the values the engine compares: numeric equality
across `bool`/`int` (a Python boolean equals its numeric value),
structural equality elsewhere. -/
def pyEq : JValue → JValue → Bool
  | .bool a, .int b => (if a then (1 : Int) else 0) == b
  | .int a, .bool b => a == (if b then (1 : Int) else 0)
  | a, b => a == b

/-- Is this `Except` result an error? -/
def isErrB {ε α : Type} : Except ε α → Bool
  | .error _ => true
  | .ok _ => false

mutual

/-- No string leaf of the document contains a template marker. -/
def noMarkers : JValue → Bool
  | .str s => !hasMarker s.data
  | .arr xs => noMarkersList xs
  | .obj kvs => noMarkersObj kvs
  | _ => true

/-- `noMarkers` over a sequence's elements. -/
def noMarkersList : List JValue → Bool
  | [] => true
  | x :: xs => noMarkers x && noMarkersList xs

/-- `noMarkers` over a map's values. -/
def noMarkersObj : List (String × JValue) → Bool
  | [] => true
  | (_, v) :: kvs => noMarkers v && noMarkersObj kvs

end

mutual

/-- Does the document contain a templated string leaf whose engine
evaluation over `ctx` fails (an undefined variable or a syntax error)? -/
def hasBadLeaf (ctx : Ctx) : JValue → Bool
  | .str s => hasMarker s.data && isErrB (renderString ctx s)
  | .arr xs => hasBadLeafList ctx xs
  | .obj kvs => hasBadLeafObj ctx kvs
  | _ => false

/-- `hasBadLeaf` over a sequence's elements. -/
def hasBadLeafList (ctx : Ctx) : List JValue → Bool
  | [] => false
  | x :: xs => hasBadLeaf ctx x || hasBadLeafList ctx xs

/-- `hasBadLeaf` over a map's values. -/
def hasBadLeafObj (ctx : Ctx) : List (String × JValue) → Bool
  | [] => false
  | (_, v) :: kvs => hasBadLeaf ctx v || hasBadLeafObj ctx kvs

end

instance : IsTotal Row createdDesc :=
  ⟨fun a b => le_total b.created_at a.created_at⟩

instance : IsTrans Row createdDesc :=
  ⟨fun _ _ _ hab hbc => le_trans hbc hab⟩

/-! ## Validator lemmas: each rule reports its violation -/

/-- A non-null, non-integer `version` is reported as a type error. -/
lemma version_type_mem (doc : JValue) (h1 : pyDig doc "version" ≠ .null)
    (h2 : pyIsinstance (pyDig doc "version") .int = false) :
    "Invalid type for version: expected int" ∈ validate_config_payload doc := by
  simp [validate_config_payload, REQUIRED_FIELDS, h1, h2, PyType.name]
  try first
  | (left; split_ifs <;> simp)
  | (split_ifs <;> simp)

/-- A non-null, non-string `database.host` is reported as a type error. -/
lemma host_type_mem (doc : JValue) (h1 : pyDig doc "database.host" ≠ .null)
    (h2 : pyIsinstance (pyDig doc "database.host") .str = false) :
    "Invalid type for database.host: expected str" ∈ validate_config_payload doc := by
  simp [validate_config_payload, REQUIRED_FIELDS, h1, h2, PyType.name]
  try first
  | (left; split_ifs <;> simp)
  | (split_ifs <;> simp)

/-- A non-null, non-integer `database.port` is reported as a type error. -/
lemma port_type_mem (doc : JValue) (h1 : pyDig doc "database.port" ≠ .null)
    (h2 : pyIsinstance (pyDig doc "database.port") .int = false) :
    "Invalid type for database.port: expected int" ∈ validate_config_payload doc := by
  simp [validate_config_payload, REQUIRED_FIELDS, h1, h2, PyType.name]
  try first
  | (left; split_ifs <;> simp)
  | (split_ifs <;> simp)

/-- An absent `database.host` is reported as missing. -/
lemma host_missing_mem (doc : JValue)
    (h1 : pyDig doc "database.host" = .null) :
    "Missing required field: database.host" ∈ validate_config_payload doc := by
  simp [validate_config_payload, REQUIRED_FIELDS, h1, PyType.name]
  try first
  | (left; split_ifs <;> simp)
  | (split_ifs <;> simp)

/-- An absent `database.port` is reported as missing. -/
lemma port_missing_mem (doc : JValue)
    (h1 : pyDig doc "database.port" = .null) :
    "Missing required field: database.port" ∈ validate_config_payload doc := by
  simp [validate_config_payload, REQUIRED_FIELDS, h1, PyType.name]
  try first
  | (left; split_ifs <;> simp)
  | (split_ifs <;> simp)

/-- An integer `database.port` outside `[1, 65535]` is reported. -/
lemma port_range_mem (doc : JValue)
    (h1 : pyIsinstance (pyDig doc "database.port") .int = true)
    (h2 : ¬ (1 ≤ pyAsInt (pyDig doc "database.port") ∧
        pyAsInt (pyDig doc "database.port") ≤ 65535)) :
    "Invalid database.port: must be 1..65535" ∈ validate_config_payload doc := by
  simp [validate_config_payload, REQUIRED_FIELDS, h1, h2, PyType.name]
  try first
  | (left; split_ifs <;> simp)
  | (split_ifs <;> simp)

/-- An empty or whitespace-only string `database.host` is reported. -/
lemma host_empty_mem (doc : JValue) (s : String)
    (h1 : pyDig doc "database.host" = .str s)
    (h2 : pyStripIsEmpty s = true) :
    "Invalid database.host: must be non-empty string" ∈ validate_config_payload doc := by
  simp [validate_config_payload, REQUIRED_FIELDS, h1, h2, PyType.name]
  try first
  | (left; split_ifs <;> simp)
  | (split_ifs <;> simp)

/-- The validator never reports `version` as missing (it is optional). -/
lemma no_missing_version (doc : JValue) :
    "Missing required field: version" ∉ validate_config_payload doc := by
  simp [validate_config_payload, REQUIRED_FIELDS, PyType.name]
  split_ifs <;> simp <;> split <;> simp

/-! ## Store and dictionary lemmas -/

/-- Every member of a list is bounded by `foldl max`. -/
lemma le_foldl_max (l : List Int) (a : Int) :
    a ≤ l.foldl max a ∧ ∀ b ∈ l, b ≤ l.foldl max a := by
  induction l generalizing a with
  | nil => simp
  | cons c l ih =>
      refine ⟨?_, ?_⟩
      · calc a ≤ max a c := le_max_left a c
          _ ≤ (c :: l).foldl max a := by simpa using (ih (max a c)).1
      · intro b hb
        rcases List.mem_cons.mp hb with hb | hb
        · subst hb
          calc b ≤ max a b := le_max_right a b
            _ ≤ (b :: l).foldl max a := by simpa using (ih (max a b)).1
        · simpa using (ih (max a c)).2 b hb

/-- `max?` bounds every member. -/
lemma le_of_max?_eq_some {l : List Int} {m : Int} (h : l.max? = some m) :
    ∀ a ∈ l, a ≤ m := by
  cases l with
  | nil => simp at h
  | cons a as =>
      have hm : m = as.foldl max a := by
        simpa [List.max?] using h.symm
      intro b hb
      subst hm
      rcases List.mem_cons.mp hb with hb | hb
      · subst hb; exact (le_foldl_max as b).1
      · exact (le_foldl_max as a).2 b hb

/-- `max? = none` only on the empty list. -/
lemma max?_none {l : List Int} (h : l.max? = none) : l = [] := by
  cases l with
  | nil => rfl
  | cons a as => simp [List.max?] at h

/-- Replacing the value at a present key puts `(k, x)` where the first
match was, so `find?` returns it. -/
lemma find?_map_set (kvs : List (String × JValue)) (k : String) (x : JValue)
    (h : kvs.any (fun p => p.1 == k) = true) :
    (kvs.map (fun p => if p.1 == k then (k, x) else p)).find?
      (fun p => p.1 == k) = some (k, x) := by
  induction kvs with
  | nil => simp at h
  | cons p ps ih =>
      by_cases hp : p.1 == k
      · simp [List.find?, hp]
      · have h' : ps.any (fun q => q.1 == k) = true := by
          simpa [List.any_cons, hp] using h
        simp only [List.map_cons, hp, if_neg, Bool.false_eq_true,
          not_false_eq_true, List.find?_cons_of_neg, ih h']
        try simp [List.find?, hp, ih h']

/-- Setting a key then reading it back gives the value just set. -/
lemma pyGet_pySet (kvs : List (String × JValue)) (k : String) (x : JValue) :
    pyGet (pySet (.obj kvs) k x) k = x := by
  cases hany : kvs.any (fun p => p.1 == k) with
  | true =>
      simp only [pySet, hany, if_true, pyGet, objGet, find?_map_set kvs k x hany]
  | false =>
      have hnone : kvs.find? (fun p => p.1 == k) = none := by
        rw [List.find?_eq_none]
        intro p hp hc
        have hh : kvs.any (fun p => p.1 == k) = true :=
          List.any_eq_true.mpr ⟨p, hp, hc⟩
        rw [hany] at hh
        exact Bool.false_ne_true hh
      simp only [pySet, hany, Bool.false_eq_true, if_false, pyGet, objGet]
      rw [List.find?_append, hnone]
      simp [List.find?]

/-! ## Claim theorems: the validator -/

/-- **C5**: whenever one of the required dotted-path fields (`version`,
`database.host`, `database.port`) is present — resolving through nested
maps to a non-null value — with a value of the wrong type, the validator
reports `Invalid type for <path>: expected <type>`; absence of `version`
is never an error (no missing-version message exists), but its presence
with a non-integer value is; in particular
`{"version": "x", "database": {"host": "h", "port": 80}}` yields exactly
`Invalid type for version: expected int`. -/
theorem validator_reports_wrong_types :
    (∀ (doc : JValue) (path : String) (ty : PyType),
      (path, ty) ∈ REQUIRED_FIELDS → pyDig doc path ≠ .null →
      pyIsinstance (pyDig doc path) ty = false →
      ("Invalid type for " ++ path ++ ": expected " ++ ty.name) ∈
        validate_config_payload doc)
    ∧ (∀ doc : JValue,
        "Missing required field: version" ∉ validate_config_payload doc)
    ∧ validate_config_payload (.obj [("version", .str "x"),
        ("database", .obj [("host", .str "h"), ("port", .int 80)])]) =
      ["Invalid type for version: expected int"] := by
  refine ⟨?_, no_missing_version, by decide⟩
  intro doc path ty hmem h1 h2
  simp only [REQUIRED_FIELDS, List.mem_cons, List.not_mem_nil, or_false,
    Prod.mk.injEq] at hmem
  rcases hmem with ⟨hp, ht⟩ | ⟨hp, ht⟩ | ⟨hp, ht⟩ <;> subst hp <;> subst ht
  · simpa [PyType.name] using version_type_mem doc h1 h2
  · simpa [PyType.name] using host_type_mem doc h1 h2
  · simpa [PyType.name] using port_type_mem doc h1 h2

/-- Witness for the C5 theorem at the concrete document of the claim. -/
theorem validator_reports_wrong_types_witness :
    ("Invalid type for " ++ "version" ++ ": expected " ++ PyType.int.name) ∈
      validate_config_payload (.obj [("version", .str "x"),
        ("database", .obj [("host", .str "h"), ("port", .int 80)])]) :=
  validator_reports_wrong_types.1 _ "version" .int (by decide) (by decide)
    (by decide)

/-- **C6**: validating the empty map reports exactly the two missing
`database` fields (and hence no missing-version error); and the rules
are evaluated independently — every violated rule contributes its
message to the single returned list: missing `database.host`, missing
`database.port`, each wrong-type rule, the port-range rule and the
empty-host rule all appear whenever their condition holds. -/
theorem validator_reports_all_violations :
    validate_config_payload (.obj []) =
      ["Missing required field: database.host",
       "Missing required field: database.port"]
    ∧ (∀ doc : JValue, pyDig doc "database.host" = .null →
        "Missing required field: database.host" ∈ validate_config_payload doc)
    ∧ (∀ doc : JValue, pyDig doc "database.port" = .null →
        "Missing required field: database.port" ∈ validate_config_payload doc)
    ∧ (∀ doc : JValue, pyDig doc "version" ≠ .null →
        pyIsinstance (pyDig doc "version") .int = false →
        "Invalid type for version: expected int" ∈ validate_config_payload doc)
    ∧ (∀ doc : JValue, pyDig doc "database.host" ≠ .null →
        pyIsinstance (pyDig doc "database.host") .str = false →
        "Invalid type for database.host: expected str" ∈
          validate_config_payload doc)
    ∧ (∀ doc : JValue, pyDig doc "database.port" ≠ .null →
        pyIsinstance (pyDig doc "database.port") .int = false →
        "Invalid type for database.port: expected int" ∈
          validate_config_payload doc)
    ∧ (∀ doc : JValue, pyIsinstance (pyDig doc "database.port") .int = true →
        ¬ (1 ≤ pyAsInt (pyDig doc "database.port") ∧
            pyAsInt (pyDig doc "database.port") ≤ 65535) →
        "Invalid database.port: must be 1..65535" ∈ validate_config_payload doc)
    ∧ (∀ (doc : JValue) (s : String), pyDig doc "database.host" = .str s →
        pyStripIsEmpty s = true →
        "Invalid database.host: must be non-empty string" ∈
          validate_config_payload doc) :=
  ⟨by decide, host_missing_mem, port_missing_mem, version_type_mem,
   host_type_mem, port_type_mem, port_range_mem, host_empty_mem⟩

/-- Witness for the C6 theorem: the empty map violates both missing-field
rules and both messages are in the one returned list. -/
theorem validator_reports_all_violations_witness :
    "Missing required field: database.host" ∈
      validate_config_payload (.obj [])
    ∧ "Missing required field: database.port" ∈
      validate_config_payload (.obj []) :=
  ⟨validator_reports_all_violations.2.1 (.obj []) (by decide),
   validator_reports_all_violations.2.2.1 (.obj []) (by decide)⟩

/-- **C7**: independently of the generic type pass, an integer
`database.port` outside `[1, 65535]` is reported as
`Invalid database.port: must be 1..65535` (e.g. port `99999`), and an
empty or whitespace-only string `database.host` is reported as
`Invalid database.host: must be non-empty string`. -/
theorem validator_semantic_checks :
    (∀ (doc : JValue) (n : Int), pyDig doc "database.port" = .int n →
      ¬ (1 ≤ n ∧ n ≤ 65535) →
      "Invalid database.port: must be 1..65535" ∈ validate_config_payload doc)
    ∧ (∀ (doc : JValue) (s : String), pyDig doc "database.host" = .str s →
      pyStripIsEmpty s = true →
      "Invalid database.host: must be non-empty string" ∈
        validate_config_payload doc)
    ∧ validate_config_payload (.obj [("database",
        .obj [("host", .str "h"), ("port", .int 99999)])]) =
      ["Invalid database.port: must be 1..65535"] := by
  refine ⟨?_, host_empty_mem, by decide⟩
  intro doc n h1 h2
  apply port_range_mem doc <;> rw [h1]
  · rfl
  · simpa [pyAsInt] using h2

/-- Witness for the C7 theorem at port `99999` and host `" "`. -/
theorem validator_semantic_checks_witness :
    "Invalid database.port: must be 1..65535" ∈
      validate_config_payload (.obj [("database",
        .obj [("host", .str "h"), ("port", .int 99999)])])
    ∧ "Invalid database.host: must be non-empty string" ∈
      validate_config_payload (.obj [("database",
        .obj [("host", .str " "), ("port", .int 80)])]) :=
  ⟨validator_semantic_checks.1 _ 99999 (by decide) (by decide),
   validator_semantic_checks.2.1 _ " " (by decide) (by decide)⟩

/-- **C10**: because Python booleans are a subclass of `int`, the
validator accepts booleans wherever an integer is expected:
`{"version": true, "database": {"host": "h", "port": true}}` validates
with no errors (`port=true` also passes the range check, as `True`
equals 1). -/
theorem validator_accepts_bools_as_ints :
    validate_config_payload (.obj [("version", .bool true),
      ("database", .obj [("host", .str "h"), ("port", .bool true)])]) = []
    ∧ (∀ b : Bool, pyIsinstance (.bool b) .int = true)
    ∧ pyAsInt (.bool true) = 1 := by decide

/-! ## Version assignment and conflict handling -/

/-- A freshly assigned version (`max+1`, or 1 on an empty service) never
collides with an existing row of that service. -/
lemma fresh_version_no_conflict (db : Store) (s : String) :
    db.any (fun r => r.service == s &&
      r.version == (match get_latest_version db s with
        | none => 1 | some m => m + 1)) = false := by
  rw [List.any_eq_false]
  intro r hr hc
  simp only [Bool.and_eq_true, beq_iff_eq] at hc
  obtain ⟨hs, hv⟩ := hc
  have hmem : r.version ∈ (db.filter (fun r => r.service == s)).map Row.version :=
    List.mem_map_of_mem _ (List.mem_filter.mpr ⟨hr, by simp [hs]⟩)
  cases hmax : get_latest_version db s with
  | none =>
      have hnil : (db.filter (fun r => r.service == s)).map Row.version = [] :=
        max?_none hmax
      rw [hnil] at hmem
      exact absurd hmem (List.not_mem_nil _)
  | some m =>
      have hle := le_of_max?_eq_some hmax r.version hmem
      rw [hmax] at hv
      have hv' : r.version = m + 1 := hv
      omega

/-- On a map, `data.get("version")` and `_dig(data, "version")` agree. -/
lemma pyGet_obj_version (kvs : List (String × JValue)) :
    pyGet (.obj kvs) "version" = pyDig (.obj kvs) "version" := by
  show pyGet (.obj kvs) "version" = dig (.obj kvs) (splitDot "version")
  have h : splitDot "version" = ["version"] := by decide
  rw [h]
  cases hq : objGet kvs "version" with
  | some v => simp [dig, pyGet, hq]
  | none => simp [dig, pyGet, hq]

/-- A clean validation run forces a present `version` to satisfy the
Python `isinstance(_, int)` check. -/
lemma version_int_of_valid (kvs : List (String × JValue))
    (hval : validate_config_payload (.obj kvs) = [])
    (hne : pyDig (.obj kvs) "version" ≠ .null) :
    pyIsinstance (pyDig (.obj kvs) "version") .int = true := by
  by_contra h
  have hmem := version_type_mem (.obj kvs) hne (Bool.not_eq_true _ ▸ h)
  rw [hval] at hmem
  exact absurd hmem (List.not_mem_nil _)

/-- **C2**: a submission whose document has no `version` (`data.get`
returns `None`) is assigned `1` when the store holds no rows for the
service and `max(version)+1` otherwise, the assigned number is written
into the stored payload and echoed in the response; and two sequential
submissions of a version-less document to an empty service receive
versions 1 then 2. -/
theorem version_assignment_rule :
    (∀ (db : Store) (s : String) (kvs : List (String × JValue)) (v : Int),
      validate_config_payload (.obj kvs) = [] →
      pyGet (.obj kvs) "version" = .null →
      v = (match get_latest_version db s with
          | none => 1 | some m => m + 1) →
      post_config db s (.obj kvs) =
        .ok (db ++ [⟨s, v, pySet (.obj kvs) "version" (.int v), db.length⟩],
          .obj [("service", .str s), ("version", .int v),
            ("status", .str "saved")])
      ∧ (db.filter (fun r => r.service == s) = [] → v = 1)
      ∧ (∀ m, get_latest_version db s = some m → v = m + 1))
    ∧ (post_config [] "svc"
        (.obj [("database", .obj [("host", .str "h"), ("port", .int 80)])])
        >>= fun p =>
        (post_config p.1 "svc"
          (.obj [("database",
            .obj [("host", .str "h"), ("port", .int 80)])])).map fun q =>
          (pyGet p.2 "version", pyGet q.2 "version")) =
      .ok (.int 1, .int 2) := by
  refine ⟨?_, by decide⟩
  intro db s kvs v hval hver hv
  have hnc := fresh_version_no_conflict db s
  rw [← hv] at hnc
  refine ⟨?_, ?_, ?_⟩
  · simp only [post_config, hval, hver, ne_eq, not_true_eq_false, if_false,
      reduceCtorEq, ← hv, insert_config, hnc, Bool.false_eq_true, if_true]
    try simp
  · intro hfil
    have hnone : get_latest_version db s = none := by
      simp [get_latest_version, hfil, List.max?]
    rw [hnone] at hv
    exact hv
  · intro m hm
    rw [hm] at hv
    exact hv

/-- Witness for the C2 theorem: the first submission to an empty store. -/
theorem version_assignment_rule_witness :
    post_config [] "svc"
      (.obj [("database", .obj [("host", .str "h"), ("port", .int 80)])]) =
      .ok ([⟨"svc", 1, pySet
          (.obj [("database", .obj [("host", .str "h"), ("port", .int 80)])])
          "version" (.int 1), 0⟩],
        .obj [("service", .str "svc"), ("version", .int 1),
          ("status", .str "saved")])
    ∧ (([] : Store).filter (fun r => r.service == "svc") = [] → (1 : Int) = 1)
    ∧ (∀ m, get_latest_version [] "svc" = some m → (1 : Int) = m + 1) :=
  version_assignment_rule.1 [] "svc" _ 1 (by decide) (by decide) (by decide)

/-- **C1** (amended): the code has no conflict-specific handling at all.
A store `ConflictError` escaping `insert_config` reaches the generic
handler arm and is returned as `500 {"error": "internal server error"}`;
in particular a caller-specified version that collides with an existing
`(service, version)` row makes `post_config` fail with the store
conflict (no retry is attempted — the insert is executed once and its
error is the final outcome). -/
theorem conflict_surfaces_as_500 :
    (∀ e : DbError,
      handle_errors (.storeError e) =
        (500, .obj [("error", .str "internal server error")]))
    ∧ (∀ (db : Store) (s : String) (kvs : List (String × JValue)),
      validate_config_payload (.obj kvs) = [] →
      pyGet (.obj kvs) "version" ≠ .null →
      db.any (fun r => r.service == s &&
        r.version == pyAsInt (pyGet (.obj kvs) "version")) = true →
      post_config db s (.obj kvs) = .error (.storeError .conflict)) := by
  constructor
  · intro e; rfl
  · intro db s kvs hval hver hc
    cases hv : pyGet (.obj kvs) "version" with
    | null => exact absurd hv hver
    | bool b =>
        rw [hv] at hc
        simp [post_config, hval, hv, insert_config, hc]
    | int n =>
        rw [hv] at hc
        simp [post_config, hval, hv, insert_config, hc]
    | str s' =>
        rw [hv] at hc
        simp [post_config, hval, hv, insert_config, hc]
    | arr xs =>
        rw [hv] at hc
        simp [post_config, hval, hv, insert_config, hc]
    | obj o =>
        rw [hv] at hc
        simp [post_config, hval, hv, insert_config, hc]

/-- Witness for the C1 theorem: a resubmission of version 1. -/
theorem conflict_surfaces_as_500_witness :
    post_config
      [⟨"svc", 1, .obj [("version", .int 1),
        ("database", .obj [("host", .str "h"), ("port", .int 80)])], 0⟩]
      "svc"
      (.obj [("version", .int 1),
        ("database", .obj [("host", .str "h"), ("port", .int 80)])]) =
      .error (.storeError .conflict) :=
  conflict_surfaces_as_500.2 _ "svc" _ (by decide) (by decide) (by decide)

/-- Counterexample to **C1** as stated: submitting a caller-specified
`version: 1` that collides with an existing row for the service ends in
the store conflict being mapped to the generic
`500 {"error": "internal server error"}` response — not surfaced as a
conflict error, and not retried. -/
theorem caller_conflict_gets_generic_500 :
    post_config
      [⟨"svc", 1, .obj [("version", .int 1),
        ("database", .obj [("host", .str "h"), ("port", .int 80)])], 0⟩]
      "svc"
      (.obj [("version", .int 1),
        ("database", .obj [("host", .str "h"), ("port", .int 80)])]) =
      .error (.storeError .conflict)
    ∧ handle_errors (.storeError .conflict) =
      (500, .obj [("error", .str "internal server error")]) := by decide

/-- **C9**: every row the submission path writes carries its own version
inside its payload: when `version` was absent the engine writes the
assigned number into the document before persisting, and when it was
caller-specified the same validated integer becomes the row's version
(Python `==`, under which `True == 1`, since the validator lets booleans
through as integers). -/
theorem persisted_version_matches_row :
    ∀ (db : Store) (s : String) (kvs : List (String × JValue))
      (db2 : Store) (resp : JValue),
      post_config db s (.obj kvs) = .ok (db2, resp) →
      ∃ r : Row, db2 = db ++ [r] ∧
        pyEq (pyGet r.payload "version") (.int r.version) = true := by
  intro db s kvs db2 resp hok
  by_cases hval : validate_config_payload (.obj kvs) = []
  case neg => simp [post_config, hval] at hok
  cases hv : pyGet (.obj kvs) "version" with
  | null =>
      have hnc := fresh_version_no_conflict db s
      simp only [post_config, hval, ne_eq, not_true_eq_false, if_false, hv,
        reduceCtorEq, insert_config, hnc, Bool.false_eq_true, if_true,
        Except.ok.injEq, Prod.mk.injEq] at hok
      refine ⟨_, hok.1.symm, ?_⟩
      rw [pyGet_pySet]
      simp [pyEq]
  | int n =>
      by_cases hc : db.any (fun r => r.service == s &&
          r.version == pyAsInt (.int n)) = true
      · simp [post_config, hval, hv, insert_config, hc] at hok
      · rw [Bool.not_eq_true] at hc
        simp only [post_config, hval, ne_eq, not_true_eq_false, if_false, hv,
          reduceCtorEq, insert_config, hc, Bool.false_eq_true, if_true,
          Except.ok.injEq, Prod.mk.injEq] at hok
        refine ⟨_, hok.1.symm, ?_⟩
        simp [hv, pyEq, pyAsInt]
  | bool b =>
      by_cases hc : db.any (fun r => r.service == s &&
          r.version == pyAsInt (.bool b)) = true
      · simp [post_config, hval, hv, insert_config, hc] at hok
      · rw [Bool.not_eq_true] at hc
        simp only [post_config, hval, ne_eq, not_true_eq_false, if_false, hv,
          reduceCtorEq, insert_config, hc, Bool.false_eq_true, if_true,
          Except.ok.injEq, Prod.mk.injEq] at hok
        refine ⟨_, hok.1.symm, ?_⟩
        cases b <;> simp [hv, pyEq, pyAsInt]
  | str s' =>
      have hint := version_int_of_valid kvs hval
        (by rw [← pyGet_obj_version, hv]; simp)
      rw [← pyGet_obj_version, hv] at hint
      simp [pyIsinstance] at hint
  | arr xs =>
      have hint := version_int_of_valid kvs hval
        (by rw [← pyGet_obj_version, hv]; simp)
      rw [← pyGet_obj_version, hv] at hint
      simp [pyIsinstance] at hint
  | obj o =>
      have hint := version_int_of_valid kvs hval
        (by rw [← pyGet_obj_version, hv]; simp)
      rw [← pyGet_obj_version, hv] at hint
      simp [pyIsinstance] at hint

/-- Witness for the C9 theorem: a caller-specified version 7. -/
theorem persisted_version_matches_row_witness :
    ∃ r : Row,
      [Row.mk "svc" 7 (.obj [("version", .int 7),
        ("database", .obj [("host", .str "h"), ("port", .int 80)])]) 0] =
        ([] : Store) ++ [r] ∧
      pyEq (pyGet r.payload "version") (.int r.version) = true :=
  persisted_version_matches_row [] "svc"
    [("version", .int 7),
      ("database", .obj [("host", .str "h"), ("port", .int 80)])]
    [Row.mk "svc" 7 (.obj [("version", .int 7),
      ("database", .obj [("host", .str "h"), ("port", .int 80)])]) 0]
    (.obj [("service", .str "svc"), ("version", .int 7),
      ("status", .str "saved")])
    (by decide)

/-! ## History -/

/-- **C8**: `get_history(service, limit)` returns `(version, created_at)`
pairs most recent first (non-increasing `created_at`) and at most
`limit` of them; after inserting versions 1..5 sequentially for a
service, history with `limit=3` is versions `5, 4, 3` in that order. -/
theorem history_most_recent_first :
    (∀ (db : Store) (s : String) (limit : Nat),
      (get_history db s limit).length ≤ limit)
    ∧ (∀ (db : Store) (s : String) (limit : Nat),
      (get_history db s limit).Pairwise (fun a b => b.2 ≤ a.2))
    ∧ ((insert_config [] "s" 1 (.obj []) >>= fun db =>
        insert_config db "s" 2 (.obj []) >>= fun db =>
        insert_config db "s" 3 (.obj []) >>= fun db =>
        insert_config db "s" 4 (.obj []) >>= fun db =>
        insert_config db "s" 5 (.obj [])).map
          (fun db => (get_history db "s" 3).map Prod.fst)) =
      .ok [5, 4, 3] := by
  refine ⟨?_, ?_, by decide⟩
  · intro db s limit
    simp only [get_history, List.length_map, List.length_take]
    exact min_le_left _ _
  · intro db s limit
    have hs : List.Sorted createdDesc
        (List.insertionSort createdDesc
          (db.filter (fun r => r.service == s))) :=
      List.sorted_insertionSort _ _
    have ht : ((List.insertionSort createdDesc
        (db.filter (fun r => r.service == s))).take limit).Pairwise
          createdDesc :=
      List.Pairwise.sublist (List.take_sublist _ _) hs
    exact List.pairwise_map.mpr ht

/-! ## Rendering lemmas -/

mutual

/-- A failing template leaf makes the whole render fail. -/
theorem jrender_err_of_badLeaf (ctx : Ctx) :
    ∀ v, hasBadLeaf ctx v = true → isErrB (jrender ctx v) = true
  | .str s, h => by
      simp only [hasBadLeaf, Bool.and_eq_true] at h
      obtain ⟨hm, he⟩ := h
      cases hr : renderString ctx s with
      | ok o => rw [hr] at he; simp [isErrB] at he
      | error e => simp [jrender, hm, hr, isErrB]
  | .arr xs, h => by
      have hl := jrenderList_err_of_badLeaf ctx xs
        (by simpa [hasBadLeaf] using h)
      cases hr : jrenderList ctx xs with
      | ok o => rw [hr] at hl; simp [isErrB] at hl
      | error e => simp [jrender, hr, Bind.bind, Except.bind, isErrB]
  | .obj kvs, h => by
      have hl := jrenderObj_err_of_badLeaf ctx kvs
        (by simpa [hasBadLeaf] using h)
      cases hr : jrenderObj ctx kvs with
      | ok o => rw [hr] at hl; simp [isErrB] at hl
      | error e => simp [jrender, hr, Bind.bind, Except.bind, isErrB]
  | .null, h => by simp [hasBadLeaf] at h
  | .bool b, h => by simp [hasBadLeaf] at h
  | .int n, h => by simp [hasBadLeaf] at h

/-- A failing template leaf in some element fails the list render. -/
theorem jrenderList_err_of_badLeaf (ctx : Ctx) :
    ∀ xs, hasBadLeafList ctx xs = true → isErrB (jrenderList ctx xs) = true
  | [], h => by simp [hasBadLeafList] at h
  | x :: xs, h => by
      cases hx : hasBadLeaf ctx x with
      | true =>
          have hxe := jrender_err_of_badLeaf ctx x hx
          cases hr : jrender ctx x with
          | ok v => rw [hr] at hxe; simp [isErrB] at hxe
          | error e => simp [jrenderList, hr, Bind.bind, Except.bind, isErrB]
      | false =>
          have hxs : hasBadLeafList ctx xs = true := by
            simpa [hasBadLeafList, hx] using h
          have hrest := jrenderList_err_of_badLeaf ctx xs hxs
          cases hr : jrender ctx x with
          | error e => simp [jrenderList, hr, Bind.bind, Except.bind, isErrB]
          | ok v =>
              cases hrs : jrenderList ctx xs with
              | ok vs => rw [hrs] at hrest; simp [isErrB] at hrest
              | error e =>
                  simp [jrenderList, hr, hrs, Bind.bind, Except.bind, isErrB]

/-- A failing template leaf in some value fails the map render. -/
theorem jrenderObj_err_of_badLeaf (ctx : Ctx) :
    ∀ kvs, hasBadLeafObj ctx kvs = true → isErrB (jrenderObj ctx kvs) = true
  | [], h => by simp [hasBadLeafObj] at h
  | (k, v) :: kvs, h => by
      cases hx : hasBadLeaf ctx v with
      | true =>
          have hxe := jrender_err_of_badLeaf ctx v hx
          cases hr : jrender ctx v with
          | ok w => rw [hr] at hxe; simp [isErrB] at hxe
          | error e => simp [jrenderObj, hr, Bind.bind, Except.bind, isErrB]
      | false =>
          have hxs : hasBadLeafObj ctx kvs = true := by
            simpa [hasBadLeafObj, hx] using h
          have hrest := jrenderObj_err_of_badLeaf ctx kvs hxs
          cases hr : jrender ctx v with
          | error e => simp [jrenderObj, hr, Bind.bind, Except.bind, isErrB]
          | ok w =>
              cases hrs : jrenderObj ctx kvs with
              | ok ws => rw [hrs] at hrest; simp [isErrB] at hrest
              | error e =>
                  simp [jrenderObj, hr, hrs, Bind.bind, Except.bind, isErrB]

end

mutual

/-- A document with no template markers renders to itself. -/
theorem jrender_ok_of_noMarkers (ctx : Ctx) :
    ∀ v, noMarkers v = true → jrender ctx v = .ok v
  | .null, _ => rfl
  | .bool b, _ => rfl
  | .int n, _ => rfl
  | .str s, h => by
      have hm : hasMarker s.data = false := by
        simpa [noMarkers] using h
      simp [jrender, hm]
  | .arr xs, h => by
      have hl := jrenderList_ok_of_noMarkers ctx xs
        (by simpa [noMarkers] using h)
      simp [jrender, hl, Bind.bind, Except.bind, pure, Except.pure]
  | .obj kvs, h => by
      have hl := jrenderObj_ok_of_noMarkers ctx kvs
        (by simpa [noMarkers] using h)
      simp [jrender, hl, Bind.bind, Except.bind, pure, Except.pure]

/-- Marker-free list elements render to themselves. -/
theorem jrenderList_ok_of_noMarkers (ctx : Ctx) :
    ∀ xs, noMarkersList xs = true → jrenderList ctx xs = .ok xs
  | [], _ => rfl
  | x :: xs, h => by
      simp only [noMarkersList, Bool.and_eq_true] at h
      obtain ⟨h1, h2⟩ := h
      have hx := jrender_ok_of_noMarkers ctx x h1
      have hxs := jrenderList_ok_of_noMarkers ctx xs h2
      simp [jrenderList, hx, hxs, Bind.bind, Except.bind, pure, Except.pure]

/-- Marker-free map values render to themselves. -/
theorem jrenderObj_ok_of_noMarkers (ctx : Ctx) :
    ∀ kvs, noMarkersObj kvs = true → jrenderObj ctx kvs = .ok kvs
  | [], _ => rfl
  | (k, v) :: kvs, h => by
      simp only [noMarkersObj, Bool.and_eq_true] at h
      obtain ⟨h1, h2⟩ := h
      have hx := jrender_ok_of_noMarkers ctx v h1
      have hxs := jrenderObj_ok_of_noMarkers ctx kvs h2
      simp [jrenderObj, hx, hxs, Bind.bind, Except.bind, pure, Except.pure]

end

/-- A successful list render has the same length. -/
theorem jrenderList_length (ctx : Ctx) :
    ∀ xs xs', jrenderList ctx xs = .ok xs' → xs'.length = xs.length
  | [], xs', h => by
      simp only [jrenderList] at h
      cases h
      rfl
  | x :: xs, xs', h => by
      cases hx : jrender ctx x with
      | error e => simp [jrenderList, hx, Bind.bind, Except.bind] at h
      | ok v =>
          cases hxs : jrenderList ctx xs with
          | error e => simp [jrenderList, hx, hxs, Bind.bind, Except.bind] at h
          | ok vs =>
              have hlen := jrenderList_length ctx xs vs hxs
              simp [jrenderList, hx, hxs, Bind.bind, Except.bind, pure,
                Except.pure] at h
              subst h
              simp [hlen]

/-- A successful map render preserves the key list exactly. -/
theorem jrenderObj_keys (ctx : Ctx) :
    ∀ kvs kvs', jrenderObj ctx kvs = .ok kvs' →
      kvs'.map Prod.fst = kvs.map Prod.fst
  | [], kvs', h => by
      simp only [jrenderObj] at h
      cases h
      rfl
  | (k, v) :: kvs, kvs', h => by
      cases hx : jrender ctx v with
      | error e => simp [jrenderObj, hx, Bind.bind, Except.bind] at h
      | ok w =>
          cases hxs : jrenderObj ctx kvs with
          | error e => simp [jrenderObj, hx, hxs, Bind.bind, Except.bind] at h
          | ok ws =>
              have hk := jrenderObj_keys ctx kvs ws hxs
              simp [jrenderObj, hx, hxs, Bind.bind, Except.bind, pure,
                Except.pure] at h
              subst h
              simp [hk]

/-- Elementwise: a successful list render renders each element in place. -/
theorem jrenderList_elem (ctx : Ctx) :
    ∀ xs xs', jrenderList ctx xs = .ok xs' →
      ∀ (i : Nat) (x : JValue), xs[i]? = some x →
        ∃ y, xs'[i]? = some y ∧ jrender ctx x = .ok y
  | [], xs', h => by
      intro i x hx
      simp at hx
  | x :: xs, xs', h => by
      cases hx : jrender ctx x with
      | error e => simp [jrenderList, hx, Bind.bind, Except.bind] at h
      | ok v =>
          cases hxs : jrenderList ctx xs with
          | error e => simp [jrenderList, hx, hxs, Bind.bind, Except.bind] at h
          | ok vs =>
              simp only [jrenderList, hx, hxs, Bind.bind, Except.bind, pure,
                Except.pure, Except.ok.injEq] at h
              subst h
              intro i y hy
              cases i with
              | zero =>
                  simp at hy
                  subst hy
                  exact ⟨v, by simp, hx⟩
              | succ j =>
                  simp only [List.getElem?_cons_succ] at hy ⊢
                  exact jrenderList_elem ctx xs vs hxs j y hy

/-- Elementwise: a successful map render renders each value in place,
keeping its key. -/
theorem jrenderObj_elem (ctx : Ctx) :
    ∀ kvs kvs', jrenderObj ctx kvs = .ok kvs' →
      ∀ (i : Nat) (k : String) (v : JValue), kvs[i]? = some (k, v) →
        ∃ w, kvs'[i]? = some (k, w) ∧ jrender ctx v = .ok w
  | [], kvs', h => by
      intro i k v hx
      simp at hx
  | (k0, v0) :: kvs, kvs', h => by
      cases hx : jrender ctx v0 with
      | error e => simp [jrenderObj, hx, Bind.bind, Except.bind] at h
      | ok w0 =>
          cases hxs : jrenderObj ctx kvs with
          | error e => simp [jrenderObj, hx, hxs, Bind.bind, Except.bind] at h
          | ok ws =>
              simp only [jrenderObj, hx, hxs, Bind.bind, Except.bind, pure,
                Except.pure, Except.ok.injEq] at h
              subst h
              intro i k v hy
              cases i with
              | zero =>
                  simp at hy
                  obtain ⟨hk, hv⟩ := hy
                  subst hk
                  subst hv
                  exact ⟨w0, by simp, hx⟩
              | succ j =>
                  simp only [List.getElem?_cons_succ] at hy ⊢
                  exact jrenderObj_elem ctx kvs ws hxs j k v hy

/-! ## Claim theorems: rendering -/

/-- **C3**: if any templated string leaf fails to evaluate (a reference
to a variable absent from the context, or a template syntax error), the
entire render fails with a single descriptive error and no document is
returned — the result is an `error`, never a partially substituted
document; in particular `{"url": "\x7b\x7bmissing\x7d\x7d"}` against the empty
context fails with the engine's undefined-variable message. -/
theorem render_strictness :
    (∀ (doc : JValue) (ctx : Ctx), hasBadLeaf ctx doc = true →
      ∃ e, render_config doc ctx = .error e)
    ∧ render_config (.obj [("url", .str "\x7b\x7bmissing\x7d\x7d")]) [] =
      .error "Template render error: 'missing' is undefined" := by
  refine ⟨?_, by decide⟩
  intro doc ctx h
  have he := jrender_err_of_badLeaf ctx doc h
  cases hr : jrender ctx doc with
  | ok v => rw [hr] at he; simp [isErrB] at he
  | error e => exact ⟨e, hr⟩

/-- Witness for the C3 theorem at the claim's concrete document. -/
theorem render_strictness_witness :
    ∃ e, render_config (.obj [("url", .str "\x7b\x7bmissing\x7d\x7d")]) [] =
      .error e :=
  render_strictness.1 _ [] (by decide)

/-- **C4**: a successful render is the input document with exactly the
marker-bearing string leaves replaced by their template evaluation:
maps keep their exact key list and each value renders in place,
sequences keep length and order with each element rendered in place,
non-string scalars and marker-free strings pass through unchanged, a
document with no markers anywhere renders to itself for any context
(e.g. `{"a": 1, "b": [true, null]}`), and
`{"url": "http://\x7b\x7bhost\x7d\x7d:\x7b\x7bport\x7d\x7d"}` with
`{"host": "x", "port": 1}` renders to `{"url": "http://x:1"}`. -/
theorem render_preserves_structure :
    (∀ (ctx : Ctx) (kvs kvs' : List (String × JValue)),
      jrenderObj ctx kvs = .ok kvs' → kvs'.map Prod.fst = kvs.map Prod.fst)
    ∧ (∀ (ctx : Ctx) (kvs kvs' : List (String × JValue)),
      jrenderObj ctx kvs = .ok kvs' →
      ∀ (i : Nat) (k : String) (v : JValue), kvs[i]? = some (k, v) →
        ∃ w, kvs'[i]? = some (k, w) ∧ jrender ctx v = .ok w)
    ∧ (∀ (ctx : Ctx) (xs xs' : List JValue),
      jrenderList ctx xs = .ok xs' → xs'.length = xs.length)
    ∧ (∀ (ctx : Ctx) (xs xs' : List JValue),
      jrenderList ctx xs = .ok xs' →
      ∀ (i : Nat) (x : JValue), xs[i]? = some x →
        ∃ y, xs'[i]? = some y ∧ jrender ctx x = .ok y)
    ∧ (∀ (ctx : Ctx) (n : Int), jrender ctx (.int n) = .ok (.int n))
    ∧ (∀ (ctx : Ctx) (b : Bool), jrender ctx (.bool b) = .ok (.bool b))
    ∧ (∀ ctx : Ctx, jrender ctx .null = .ok .null)
    ∧ (∀ (ctx : Ctx) (s : String), hasMarker s.data = false →
        jrender ctx (.str s) = .ok (.str s))
    ∧ (∀ (ctx : Ctx) (s out : String), hasMarker s.data = true →
        renderString ctx s = .ok out → jrender ctx (.str s) = .ok (.str out))
    ∧ (∀ (ctx : Ctx) (v : JValue), noMarkers v = true →
        render_config v ctx = .ok v)
    ∧ (∀ ctx : Ctx, render_config
        (.obj [("a", .int 1), ("b", .arr [.bool true, .null])]) ctx =
        .ok (.obj [("a", .int 1), ("b", .arr [.bool true, .null])]))
    ∧ render_config
        (.obj [("url", .str "http://\x7b\x7bhost\x7d\x7d:\x7b\x7bport\x7d\x7d")])
        [("host", .str "x"), ("port", .int 1)] =
      .ok (.obj [("url", .str "http://x:1")]) := by
  refine ⟨jrenderObj_keys, jrenderObj_elem, jrenderList_length,
    jrenderList_elem, fun _ _ => rfl, fun _ _ => rfl, fun _ => rfl,
    ?_, ?_, ?_, ?_, by decide⟩
  · intro ctx s hm
    simp [jrender, hm]
  · intro ctx s out hm hr
    simp [jrender, hm, hr]
  · intro ctx v h
    exact jrender_ok_of_noMarkers ctx v h
  · intro ctx
    exact jrender_ok_of_noMarkers ctx _ (by decide)

/-- Witness for the C4 theorem: the pass-through document against a
non-trivial context. -/
theorem render_preserves_structure_witness :
    render_config (.obj [("a", .int 1), ("b", .arr [.bool true, .null])])
      [("anything", .str "at-all")] =
      .ok (.obj [("a", .int 1), ("b", .arr [.bool true, .null])]) :=
  render_preserves_structure.2.2.2.2.2.2.2.2.2.1
    [("anything", .str "at-all")] _ (by decide)

end ConfigRegistry
